import Mathlib

/-!
Verification development for a small batch speech-transcription utility
(`src/main.py`).  The program formats floating-point seconds as SRT
timestamps, probes video files for audio streams and asks the operator to
choose one, extracts the chosen stream to a temporary WAV file through an
external subprocess, transcribes it with a pretrained model, writes an SRT
subtitle file, and deletes the temporary WAV.

The embedding below is shallow:
* real-valued seconds are modelled as exact rationals `ℚ`; Python's `round`
  (correct rounding half-to-even on the value) is `pyRound`;
* the external collaborators (ffmpeg probe, ffmpeg subprocess, the speech
  model, the filesystem, the interactive console) are modelled as oracle
  inputs of type `Except`/`List`, one per call site, and the functions of
  `main.py` become pure functions of those oracles;
* Python's `assert` is modelled as returning `none` (an `AssertionError`
  aborts the function without producing a value).
-/

namespace ASR

/-- Python `round` on an exact value: round to nearest integer, ties to the
even integer.  (CPython's `round` on a float rounds the represented value
half-to-even.) -/
def pyRound (q : ℚ) : ℤ :=
  if q - ⌊q⌋ < 1/2 then ⌊q⌋
  else if 1/2 < q - ⌊q⌋ then ⌊q⌋ + 1
  else if ⌊q⌋ % 2 = 0 then ⌊q⌋ else ⌊q⌋ + 1

/-- The character for decimal digit `d` (`0 ≤ d ≤ 9`). -/
def digitChar (d : ℕ) : Char := Char.ofNat (48 + d)

/-- Decimal digits of `n`, most significant first; `fuel` bounds recursion
depth (any `fuel > n` is enough) so the definition is structural. -/
def natDigitsAux : ℕ → ℕ → List Char
  | 0, _ => []
  | fuel + 1, n =>
    if n < 10 then [digitChar n]
    else natDigitsAux fuel (n / 10) ++ [digitChar (n % 10)]

/-- Decimal digits of `n`, most significant first. -/
def natDigits (n : ℕ) : List Char := natDigitsAux (n + 1) n

/-- Decimal representation of a natural number (Python `str`/`{n:d}`). -/
def natRepr (n : ℕ) : String := ⟨natDigits n⟩

/-- Python's zero-padding format `{n:0wd}` for a non-negative integer:
pad the decimal digits with leading zeros up to width `w` (character
list form; a Lean `String` is its list of characters). -/
def padZeroList (w : ℕ) (n : ℕ) : List Char :=
  List.replicate (w - (natDigits n).length) '0' ++ natDigits n

/-- Python's zero-padding format `{n:0wd}` as a string. -/
def padZero (w : ℕ) (n : ℕ) : String := ⟨padZeroList w n⟩

/-- Lines 24–33 of `format_srt_timestamp`, character-list form: decompose
a non-negative millisecond count and format `HH:MM:SS,mmm` with
`{:02d}`/`{:03d}` padding (string concatenation concatenates the
character lists). -/
def fmtMsList (ms0 : ℕ) : List Char :=
  let hours := ms0 / 3600000
  let ms1 := ms0 % 3600000
  let minutes := ms1 / 60000
  let ms2 := ms1 % 60000
  let seconds := ms2 / 1000
  let ms3 := ms2 % 1000
  padZeroList 2 hours ++ ':' :: (padZeroList 2 minutes
    ++ ':' :: (padZeroList 2 seconds ++ ',' :: padZeroList 3 ms3))

/-- Lines 24–33 of `format_srt_timestamp` as a string. -/
def fmtMs (ms0 : ℕ) : String := ⟨fmtMsList ms0⟩

/-- `format_srt_timestamp` (src/main.py lines 19–33).  The `assert
seconds >= 0` is modelled by returning `none` for negative input; past the
assert, `milliseconds = round(seconds * 1000.0)` is non-negative, so the
cast to `ℕ` is exact. -/
def format_srt_timestamp (seconds : ℚ) : Option String :=
  if seconds < 0 then none
  else some (fmtMs (pyRound (seconds * 1000)).toNat)

/-- Numeric value of a decimal digit character. -/
def digitVal (c : Char) : ℕ := c.toNat - 48

/-- Whether a string matches the regular expression
`\d\x7b2\x7d:\d\x7b2\x7d:\d\x7b2\x7d,\d\x7b3\x7d` in full (twelve characters:
two digits, a colon, two digits, a colon, two digits, a comma, three
digits).  This formalises the pattern named by the specification. -/
def matchesSRT (s : String) : Bool :=
  match s.data with
  | [h1, h2, c1, m1, m2, c2, t1, t2, c3, x1, x2, x3] =>
    h1.isDigit && h2.isDigit && (c1 == ':') && m1.isDigit && m2.isDigit
      && (c2 == ':') && t1.isDigit && t2.isDigit && (c3 == ',')
      && x1.isDigit && x2.isDigit && x3.isDigit
  | _ => false

/-- Parse an `HH:MM:SS,mmm` string back to a total number of milliseconds
(`hours*3600000 + minutes*60000 + seconds*1000 + milliseconds`), as the
round-trip direction of the specification's property. -/
def parseSRT (s : String) : Option ℕ :=
  match s.data with
  | [h1, h2, c1, m1, m2, c2, t1, t2, c3, x1, x2, x3] =>
    if h1.isDigit && h2.isDigit && (c1 == ':') && m1.isDigit && m2.isDigit
        && (c2 == ':') && t1.isDigit && t2.isDigit && (c3 == ',')
        && x1.isDigit && x2.isDigit && x3.isDigit then
      some ((10 * digitVal h1 + digitVal h2) * 3600000
        + (10 * digitVal m1 + digitVal m2) * 60000
        + (10 * digitVal t1 + digitVal t2) * 1000
        + (100 * digitVal x1 + 10 * digitVal x2 + digitVal x3))
    else none
  | _ => none

/-! ## Audio stream selection (`select_audio_stream`, lines 45–81)

The ffmpeg probe is an oracle: either an `ffmpeg.Error` (carrying stderr
text, caught at line 79, which prints it and returns `None`) or a list of
stream descriptors.  Only `codec_type` is observed by the control flow (the
filter at line 50); the per-stream tags printed in the menu at lines 61–67
are display-only and observed by no claim.  Each call to `input()` is one
interactive prompt; its parsed result is `none` when `int(...)` raises
`ValueError` (non-numeric text) and `some c` for an integer `c`. -/

/-- One entry of `probe['streams']`. -/
structure StreamInfo where
  codec_type : String

/-- The `while True` prompt loop (lines 69–77) for a menu of `n` streams,
driven by the list of operator inputs.  Returns the selected 0-based index
(`none` when the input list is exhausted, i.e. the interactive session
ends without a valid choice) together with the number of prompts issued. -/
def promptLoop (n : ℕ) : List (Option ℤ) → Option ℕ × ℕ
  | [] => (none, 0)
  | i :: rest =>
    match i with
    | none =>
      let p := promptLoop n rest
      (p.1, p.2 + 1)
    | some c =>
      if 1 ≤ c ∧ c ≤ (n : ℤ) then (some (c - 1).toNat, 1)
      else
        let p := promptLoop n rest
        (p.1, p.2 + 1)

/-- `select_audio_stream` (lines 45–81): returns the selected 0-based
stream index (or `none`) and the number of interactive prompts issued. -/
def select_audio_stream (probeResult : Except String (List StreamInfo))
    (inputs : List (Option ℤ)) : Option ℕ × ℕ :=
  match probeResult with
  | Except.error _ => (none, 0)
  | Except.ok streams =>
    let audio_streams := streams.filter (fun s => s.codec_type == "audio")
    if audio_streams.isEmpty then (none, 0)
    else if audio_streams.length == 1 then (some 0, 0)
    else promptLoop audio_streams.length inputs

/-! ## Audio extraction (`extract_audio`, lines 84–116)

The ffmpeg subprocess is an oracle: either an exception raised while
setting it up (caught at line 114) or a process return code.  The progress
lines filtered from stderr (lines 96–102) are display-only.  Console
diagnostics relevant to the claims are recorded as messages. -/

/-- Console messages emitted by `extract_audio`. -/
inductive ExtractMsg where
  | savedTo (path : String)
  | failedWithCode (rc : ℤ)
  | setupError (err : String)
deriving DecidableEq

/-- `extract_audio` (lines 84–116): success flag and emitted diagnostics. -/
def extract_audio (audio_output_path : String)
    (outcome : Except String ℤ) : Bool × List ExtractMsg :=
  match outcome with
  | Except.error e => (false, [ExtractMsg.setupError e])
  | Except.ok rc =>
    if rc = 0 then (true, [ExtractMsg.savedTo audio_output_path])
    else (false, [ExtractMsg.failedWithCode rc])

/-! ## Transcription (`transcribe_and_save_srt`, lines 119–136)

The model call is an oracle: an exception or an ordered list of segments.
The subtitle write is modelled as atomic: the function yields the full SRT
content when every step succeeds and `none` when the model raises or a
segment timestamp fails the formatter's assertion (the exception is caught
at line 135 and the function returns nothing). -/

/-- One element of `result["segments"]` (`end` is a Lean keyword, so the
end time is called `stop`). -/
structure Segment where
  start : ℚ
  stop : ℚ
  text : String

/-- One SRT cue (lines 126–131): cue number, start/end timestamps joined
by `" --> "`, stripped text, blank separator line.  `none` if a timestamp
is negative (the formatter's assertion raises). -/
def cueBlock (i : ℕ) (s : Segment) : Option String :=
  match format_srt_timestamp s.start, format_srt_timestamp s.stop with
  | some st, some en =>
    some (natRepr i ++ "\n" ++ st ++ " --> " ++ en ++ "\n"
      ++ s.text.trim ++ "\n\n")
  | _, _ => none

/-- Serialize segments to SRT text, numbering cues from `i`. -/
def srtContentAux (i : ℕ) : List Segment → Option String
  | [] => some ""
  | s :: rest =>
    match cueBlock i s, srtContentAux (i + 1) rest with
    | some b, some r => some (b ++ r)
    | _, _ => none

/-- Serialize segments to SRT text, numbering cues from 1 (line 126). -/
def srtContent (segs : List Segment) : Option String := srtContentAux 1 segs

/-- `transcribe_and_save_srt` (lines 119–136): the subtitle content
written, or `none` when nothing is (successfully) written. -/
def transcribe_and_save_srt (outcome : Except String (List Segment)) :
    Option String :=
  match outcome with
  | Except.error _ => none
  | Except.ok segs => srtContent segs

/-! ## Output paths and the batch orchestrator (`main`, lines 139–175)

`OUTPUT_DIR` is the Windows path literal of line 11, so `os.path` is
`ntpath`: both `\` and `/` separate components, and `os.path.join` of a
directory not ending in a separator inserts `\`.  (Drive-relative paths
such as `C:foo` are not modelled; the selected video paths are ordinary
absolute paths.) -/

/-- Line 11: `OUTPUT_DIR = r"Z:\ASG\Temp"`. -/
def OUTPUT_DIR : String := "Z:\\ASG\\Temp"

/-- Line 13: `LANGUAGE = "ja"`. -/
def LANGUAGE : String := "ja"

/-- Windows path separators (`ntpath.sep` and `ntpath.altsep`). -/
def isSep (c : Char) : Bool := c == '\\' || c == '/'

/-- `os.path.basename`: the component after the last path separator. -/
def basename (p : String) : String :=
  ⟨(p.data.reverse.takeWhile (fun c => !isSep c)).reverse⟩

/-- Index of the last `.` in a character list, if any. -/
def lastDotIdx (l : List Char) : Option ℕ :=
  match l.reverse.findIdx? (fun c => c == '.') with
  | none => none
  | some j => some (l.length - 1 - j)

/-- `os.path.splitext(b)[0]` for a string `b` without separators: cut at
the last dot unless every character before it is itself a dot (so a
leading-dot name like `.bashrc` keeps its extension-less form). -/
def splitextRoot (b : String) : String :=
  match lastDotIdx b.data with
  | none => b
  | some i =>
    if (b.data.take i).all (fun c => c == '.') then b
    else ⟨b.data.take i⟩

/-- Line 157: `os.path.join(OUTPUT_DIR, f"{base_name}.wav")`. -/
def derivedTempPath (video_path : String) : String :=
  OUTPUT_DIR ++ "\\" ++ splitextRoot (basename video_path) ++ ".wav"

/-- Line 158: `os.path.join(OUTPUT_DIR, f"{base_name}.srt")`. -/
def derivedSrtPath (video_path : String) : String :=
  OUTPUT_DIR ++ "\\" ++ splitextRoot (basename video_path) ++ ".srt"

/-- The per-file pipeline stages of the specification's state machine. -/
inductive Stage where
  | SELECT_STREAM
  | EXTRACT
  | TRANSCRIBE
  | CLEANUP
  | DONE
deriving DecidableEq

/-- Everything the outside world decides about one video file's
processing: its path, the probe result, the operator's menu inputs, the
ffmpeg subprocess outcome, the model outcome, and whether `os.remove`
succeeds (line 169) or raises `OSError` (line 171). -/
structure FileWorld where
  videoPath : String
  probeResult : Except String (List StreamInfo)
  userInputs : List (Option ℤ)
  extractOutcome : Except String ℤ
  transcribeOutcome : Except String (List Segment)
  removeOk : Bool

/-- Observable outcome of one iteration of the loop at lines 155–173. -/
structure FileOutcome where
  tempPath : String
  srtPath : String
  stages : List Stage
  subtitle : Option String
  transcriberInvoked : Bool
  removeAttempted : Bool
  removed : Bool

/-- One iteration of the `for video_path in selected_videos` loop
(lines 155–173). -/
def processFile (w : FileWorld) : FileOutcome :=
  let temp := derivedTempPath w.videoPath
  let srt := derivedSrtPath w.videoPath
  match (select_audio_stream w.probeResult w.userInputs).1 with
  | none =>
    { tempPath := temp, srtPath := srt
      stages := [Stage.SELECT_STREAM, Stage.DONE]
      subtitle := none, transcriberInvoked := false
      removeAttempted := false, removed := false }
  | some _ =>
    if (extract_audio temp w.extractOutcome).1 then
      { tempPath := temp, srtPath := srt
        stages := [Stage.SELECT_STREAM, Stage.EXTRACT, Stage.TRANSCRIBE,
          Stage.CLEANUP, Stage.DONE]
        subtitle := transcribe_and_save_srt w.transcribeOutcome
        transcriberInvoked := true
        removeAttempted := true, removed := w.removeOk }
    else
      { tempPath := temp, srtPath := srt
        stages := [Stage.SELECT_STREAM, Stage.EXTRACT, Stage.DONE]
        subtitle := none, transcriberInvoked := false
        removeAttempted := false, removed := false }

/-- The whole `for` loop: every selected file is processed, in order. -/
def runBatch (ws : List FileWorld) : List FileOutcome := ws.map processFile

/-- `main` (lines 139–175): aborts with no per-file processing when no
files are selected (line 143) or the model fails to load (line 151);
otherwise processes every file. -/
def mainRun (modelLoad : Except String Unit) (ws : List FileWorld) :
    Option (List FileOutcome) :=
  if ws.isEmpty then none
  else
    match modelLoad with
    | Except.error _ => none
    | Except.ok _ => some (runBatch ws)

/-- A menu entry the prompt loop accepts for a menu of `n` streams: an
integer `c` with `1 ≤ c ≤ n` (line 72). -/
def validEntry (n : ℕ) (i : Option ℤ) : Prop :=
  ∃ c, i = some c ∧ 1 ≤ c ∧ c ≤ (n : ℤ)

/-- Concrete run input: extraction exits with code 1 on a
single-audio-stream file. -/
def W4 : FileWorld :=
  { videoPath := "C:\\videos\\a.mkv"
    probeResult := Except.ok [{ codec_type := "audio" }]
    userInputs := []
    extractOutcome := Except.ok 1
    transcribeOutcome := Except.error "model failure"
    removeOk := true }

/-- Concrete run input: extraction succeeds but the model raises. -/
def W5 : FileWorld :=
  { videoPath := "C:\\videos\\b.mkv"
    probeResult := Except.ok [{ codec_type := "audio" }]
    userInputs := []
    extractOutcome := Except.ok 0
    transcribeOutcome := Except.error "CUDA out of memory"
    removeOk := true }

/-- Concrete run input: the ffmpeg probe fails. -/
def W5b : FileWorld :=
  { videoPath := "C:\\videos\\c.mkv"
    probeResult := Except.error "moov atom not found"
    userInputs := []
    extractOutcome := Except.ok 0
    transcribeOutcome := Except.ok []
    removeOk := true }

/-- Concrete probe output with exactly one audio stream (plus a video
stream, which the filter at line 50 discards). -/
def S7 : List StreamInfo := [{ codec_type := "audio" }, { codec_type := "video" }]

/-- Concrete probe output with two audio streams. -/
def S8 : List StreamInfo := [{ codec_type := "audio" }, { codec_type := "audio" }]

/-- Concrete run input: same stem `episode` as `W9b`, different directory
and extension. -/
def W9a : FileWorld :=
  { videoPath := "C:\\season1\\episode.mkv"
    probeResult := Except.ok [{ codec_type := "audio" }]
    userInputs := []
    extractOutcome := Except.ok 0
    transcribeOutcome := Except.ok []
    removeOk := true }

/-- Concrete run input: same stem `episode` as `W9a`, different directory
and extension. -/
def W9b : FileWorld :=
  { videoPath := "D:\\season2\\episode.mp4"
    probeResult := Except.ok [{ codec_type := "audio" }]
    userInputs := []
    extractOutcome := Except.ok 1
    transcribeOutcome := Except.error "unreadable wav"
    removeOk := false }

/-- Concrete run input: subprocess setup raises (missing ffmpeg binary). -/
def W10 : FileWorld :=
  { videoPath := "C:\\videos\\d.mkv"
    probeResult := Except.ok [{ codec_type := "audio" }]
    userInputs := []
    extractOutcome := Except.error "ffmpeg executable not found"
    transcribeOutcome := Except.ok []
    removeOk := true }

example : format_srt_timestamp 0 = some "00:00:00,000" := by
  rw [format_srt_timestamp, if_neg (by norm_num)]
  rw [show pyRound ((0:ℚ) * 1000) = 0 by norm_num [pyRound]]
  decide

example : format_srt_timestamp (7/2) = some "00:00:03,500" := by
  rw [format_srt_timestamp, if_neg (by norm_num)]
  rw [show pyRound ((7:ℚ)/2 * 1000) = 3500 by norm_num [pyRound]]
  decide

/-! ## Helper lemmas -/

theorem pyRound_nonneg {q : ℚ} (h : 0 ≤ q) : 0 ≤ pyRound q := by
  have hf : (0 : ℤ) ≤ ⌊q⌋ := Int.floor_nonneg.mpr h
  unfold pyRound
  split
  · exact hf
  · split
    · omega
    · split <;> omega

theorem padZeroList_two :
    ∀ n < 100, padZeroList 2 n = [digitChar (n / 10), digitChar (n % 10)] := by
  decide

set_option maxRecDepth 4096 in
theorem padZeroList_three :
    ∀ n < 1000, padZeroList 3 n
      = [digitChar (n / 100), digitChar (n / 10 % 10), digitChar (n % 10)] := by
  decide

theorem digitChar_isDigit : ∀ d < 10, (digitChar d).isDigit = true := by decide

theorem digitVal_digitChar : ∀ d < 10, digitVal (digitChar d) = d := by decide

theorem matchesSRT_mk (a b c d e f g h i j k l : Char) :
    matchesSRT ⟨[a, b, c, d, e, f, g, h, i, j, k, l]⟩ =
      (a.isDigit && b.isDigit && (c == ':') && d.isDigit && e.isDigit
        && (f == ':') && g.isDigit && h.isDigit && (i == ',')
        && j.isDigit && k.isDigit && l.isDigit) := rfl

theorem parseSRT_mk (a b c d e f g h i j k l : Char) :
    parseSRT ⟨[a, b, c, d, e, f, g, h, i, j, k, l]⟩ =
      (if a.isDigit && b.isDigit && (c == ':') && d.isDigit && e.isDigit
          && (f == ':') && g.isDigit && h.isDigit && (i == ',')
          && j.isDigit && k.isDigit && l.isDigit then
        some ((10 * digitVal a + digitVal b) * 3600000
          + (10 * digitVal d + digitVal e) * 60000
          + (10 * digitVal g + digitVal h) * 1000
          + (100 * digitVal j + 10 * digitVal k + digitVal l))
      else none) := rfl

theorem fmtMsList_eq (ms : ℕ) (h : ms < 360000000) :
    fmtMsList ms =
      [digitChar (ms / 3600000 / 10), digitChar (ms / 3600000 % 10), ':',
        digitChar (ms % 3600000 / 60000 / 10),
        digitChar (ms % 3600000 / 60000 % 10), ':',
        digitChar (ms % 3600000 % 60000 / 1000 / 10),
        digitChar (ms % 3600000 % 60000 / 1000 % 10), ',',
        digitChar (ms % 3600000 % 60000 % 1000 / 100),
        digitChar (ms % 3600000 % 60000 % 1000 / 10 % 10),
        digitChar (ms % 3600000 % 60000 % 1000 % 10)] := by
  have h1 : ms / 3600000 < 100 := by omega
  have h2 : ms % 3600000 / 60000 < 100 := by omega
  have h3 : ms % 3600000 % 60000 / 1000 < 100 := by omega
  have h4 : ms % 3600000 % 60000 % 1000 < 1000 := by omega
  simp only [fmtMsList]
  rw [padZeroList_two _ h1, padZeroList_two _ h2, padZeroList_two _ h3,
    padZeroList_three _ h4]
  rfl

theorem fmtMs_matches (ms : ℕ) (h : ms < 360000000) :
    matchesSRT (fmtMs ms) = true := by
  show matchesSRT ⟨fmtMsList ms⟩ = true
  rw [fmtMsList_eq ms h, matchesSRT_mk]
  rw [digitChar_isDigit _ (by omega), digitChar_isDigit _ (by omega),
    digitChar_isDigit _ (by omega), digitChar_isDigit _ (by omega),
    digitChar_isDigit _ (by omega), digitChar_isDigit _ (by omega),
    digitChar_isDigit _ (by omega), digitChar_isDigit _ (by omega),
    digitChar_isDigit _ (by omega)]
  rfl

theorem fmtMs_parse (ms : ℕ) (h : ms < 360000000) :
    parseSRT (fmtMs ms) = some ms := by
  show parseSRT ⟨fmtMsList ms⟩ = some ms
  rw [fmtMsList_eq ms h, parseSRT_mk]
  rw [digitChar_isDigit _ (by omega), digitChar_isDigit _ (by omega),
    digitChar_isDigit _ (by omega), digitChar_isDigit _ (by omega),
    digitChar_isDigit _ (by omega), digitChar_isDigit _ (by omega),
    digitChar_isDigit _ (by omega), digitChar_isDigit _ (by omega),
    digitChar_isDigit _ (by omega)]
  rw [if_pos (by decide)]
  rw [digitVal_digitChar _ (by omega), digitVal_digitChar _ (by omega),
    digitVal_digitChar _ (by omega), digitVal_digitChar _ (by omega),
    digitVal_digitChar _ (by omega), digitVal_digitChar _ (by omega),
    digitVal_digitChar _ (by omega), digitVal_digitChar _ (by omega),
    digitVal_digitChar _ (by omega)]
  congr 1
  omega

/-! ## Claims -/

/-- C1 (counterexample): at `seconds = 360000` (exactly 100 hours) the
formatter succeeds but returns `"100:00:00,000"`, whose hours field has
three digits, so the output does not match `\d\x7b2\x7d:\d\x7b2\x7d:\d\x7b2\x7d,\d\x7b3\x7d`
and the twelve-character round-trip parse fails. -/
theorem C1_counterexample :
    (0 : ℚ) ≤ 360000 ∧
      format_srt_timestamp (360000 : ℚ) = some "100:00:00,000" ∧
      matchesSRT "100:00:00,000" = false ∧
      parseSRT "100:00:00,000" = none := by
  refine ⟨by norm_num, ?_, by decide, by decide⟩
  rw [format_srt_timestamp, if_neg (by norm_num)]
  rw [show pyRound ((360000 : ℚ) * 1000) = 360000000 by norm_num [pyRound]]
  decide

/-- C1 (amended): for every `seconds ≥ 0` whose rounded millisecond count
is below 100 hours (`round(seconds*1000) < 360000000`), the formatter
returns a string matching `\d\x7b2\x7d:\d\x7b2\x7d:\d\x7b2\x7d,\d\x7b3\x7d`, and parsing it back as
`hours*3600000 + minutes*60000 + seconds*1000 + milliseconds` reproduces
`round(seconds*1000)`. -/
theorem C1_amended_pattern_roundtrip (q : ℚ) (h0 : 0 ≤ q)
    (hb : pyRound (q * 1000) < 360000000) :
    ∃ ms : ℕ, (ms : ℤ) = pyRound (q * 1000) ∧
      format_srt_timestamp q = some (fmtMs ms) ∧
      matchesSRT (fmtMs ms) = true ∧
      parseSRT (fmtMs ms) = some ms := by
  have hnn : 0 ≤ pyRound (q * 1000) := pyRound_nonneg (by positivity)
  refine ⟨(pyRound (q * 1000)).toNat, by omega, ?_, ?_, ?_⟩
  · rw [format_srt_timestamp, if_neg (not_lt.mpr h0)]
  · exact fmtMs_matches _ (by omega)
  · exact fmtMs_parse _ (by omega)

/-- C1 (witness): the amended theorem applied at `seconds = 7/2`. -/
theorem C1_witness :
    ∃ ms : ℕ, (ms : ℤ) = pyRound ((7 / 2 : ℚ) * 1000) ∧
      format_srt_timestamp (7 / 2) = some (fmtMs ms) ∧
      matchesSRT (fmtMs ms) = true ∧
      parseSRT (fmtMs ms) = some ms :=
  C1_amended_pattern_roundtrip (7 / 2) (by norm_num) (by norm_num [pyRound])

/-- C2 (counterexample): `format_srt_timestamp(3661.2005)` does not return
`"01:01:01,201"`.  In CPython the product `3661.2005 * 1000.0` is the
double `3661200.5` exactly (the exact product `3661200.50000000018…` of
the binary64 literal rounds down to the tie), and `round` is
half-to-even, so the millisecond count is `3661200`; the exact-rational
embedding reaches the same value, `3661.2005 * 1000 = 3661200.5`, whose
half-to-even rounding is `3661200`. -/
theorem C2_counterexample :
    format_srt_timestamp (3661.2005 : ℚ) ≠ some "01:01:01,201" := by
  rw [format_srt_timestamp, if_neg (by norm_num)]
  rw [show pyRound ((3661.2005 : ℚ) * 1000) = 3661200 by norm_num [pyRound]]
  decide

/-- C2 (amended): `format_srt_timestamp(3661.2005)` returns exactly
`"01:01:01,200"`: the tie at `3661200.5` ms is rounded half-to-even to
`3661200`, not half-up to `3661201`. -/
theorem C2_amended_value :
    format_srt_timestamp (3661.2005 : ℚ) = some "01:01:01,200" := by
  rw [format_srt_timestamp, if_neg (by norm_num)]
  rw [show pyRound ((3661.2005 : ℚ) * 1000) = 3661200 by norm_num [pyRound]]
  decide

/-- C3: for every `seconds < 0` the formatter's assertion fails, so no
output string is produced — negative inputs are never clamped or
formatted. -/
theorem C3_negative_rejected (q : ℚ) (h : q < 0) :
    format_srt_timestamp q = none := by
  rw [format_srt_timestamp, if_pos h]

/-- C3 (witness): the theorem applied at `seconds = -0.001`. -/
theorem C3_witness :
    (-0.001 : ℚ) < 0 ∧ format_srt_timestamp (-0.001 : ℚ) = none :=
  ⟨by norm_num, C3_negative_rejected (-0.001) (by norm_num)⟩

/-- C4: in every run, each selected file's outcome appears in the run's
output; a subtitle is present only when extraction succeeded and the model
returned segments (and the content is their serialization); and when
extraction exits non-zero the transcriber is never invoked and no subtitle
is created for that file. -/
theorem C4_subtitle_requires_success (load : Except String Unit)
    (ws : List FileWorld) (outs : List FileOutcome)
    (hrun : mainRun load ws = some outs) (w : FileWorld) (hw : w ∈ ws) :
    processFile w ∈ outs ∧
    ((processFile w).subtitle.isSome = true →
      (extract_audio (derivedTempPath w.videoPath) w.extractOutcome).1 = true ∧
      ∃ segs, w.transcribeOutcome = Except.ok segs ∧
        (processFile w).subtitle = srtContent segs) ∧
    (∀ rc : ℤ, w.extractOutcome = Except.ok rc → rc ≠ 0 →
      (processFile w).transcriberInvoked = false ∧
      (processFile w).subtitle = none) := by
  have hne : ws.isEmpty = false := by
    cases ws with
    | nil => cases hw
    | cons a t => rfl
  have houts : outs = runBatch ws := by
    unfold mainRun at hrun
    rw [hne] at hrun
    simp only [Bool.false_eq_true, if_false] at hrun
    cases load with
    | error e => cases hrun
    | ok u => exact (Option.some.injEq _ _ ▸ hrun).symm
  refine ⟨houts ▸ List.mem_map_of_mem processFile hw, ?_, ?_⟩
  · intro hsub
    rcases hsel : (select_audio_stream w.probeResult w.userInputs).1 with _ | i
    · simp [processFile, hsel] at hsub
    · by_cases hex :
        (extract_audio (derivedTempPath w.videoPath) w.extractOutcome).1 = true
      · refine ⟨hex, ?_⟩
        cases htr : w.transcribeOutcome with
        | error e => simp [processFile, hsel, hex, transcribe_and_save_srt, htr] at hsub
        | ok segs =>
          refine ⟨segs, rfl, ?_⟩
          simp [processFile, hsel, hex, transcribe_and_save_srt, htr]
      · rw [Bool.not_eq_true] at hex
        simp [processFile, hsel, hex] at hsub
  · intro rc hrc hrc0
    rcases hsel : (select_audio_stream w.probeResult w.userInputs).1 with _ | i
    · simp [processFile, hsel]
    · have hex :
        (extract_audio (derivedTempPath w.videoPath) w.extractOutcome).1 = false := by
        rw [hrc]
        simp [extract_audio, hrc0]
      simp [processFile, hsel, hex]

/-- C4 (witness): the theorem applied to the one-file run `[W4]`, whose
extraction exits with code 1. -/
theorem C4_witness :
    processFile W4 ∈ runBatch [W4] ∧
      (processFile W4).transcriberInvoked = false ∧
      (processFile W4).subtitle = none := by
  have h := C4_subtitle_requires_success (Except.ok ()) [W4] (runBatch [W4])
    rfl W4 (List.mem_singleton.mpr rfl)
  exact ⟨h.1, h.2.2 1 rfl (by decide)⟩

/-- C5 (counterexample): on a file where extraction succeeds and the model
raises — so the `TRANSCRIBE` stage fails and produces nothing — the loop
still executes `CLEANUP` (the `os.remove` of line 169) before `DONE`,
instead of transitioning directly to `DONE` as the claim states. -/
theorem C5_counterexample :
    transcribe_and_save_srt W5.transcribeOutcome = none ∧
      (processFile W5).stages ≠
        [Stage.SELECT_STREAM, Stage.EXTRACT, Stage.TRANSCRIBE, Stage.DONE] ∧
      (processFile W5).stages =
        [Stage.SELECT_STREAM, Stage.EXTRACT, Stage.TRANSCRIBE,
          Stage.CLEANUP, Stage.DONE] := by
  refine ⟨rfl, ?_, rfl⟩
  decide

/-- C5 (amended): per file the stages run in the order `SELECT_STREAM`,
`EXTRACT`, `TRANSCRIBE`, `CLEANUP`, `DONE`, and a failure at
`SELECT_STREAM` or `EXTRACT` transitions directly to `DONE`, skipping all
remaining stages, while the outer loop advances to the next file; a
`TRANSCRIBE` failure, however, is caught inside the transcription routine,
so `CLEANUP` still executes for that file. -/
theorem C5_amended_stage_order (w : FileWorld) (rest : List FileWorld) :
    runBatch (w :: rest) = processFile w :: runBatch rest ∧
    ((select_audio_stream w.probeResult w.userInputs).1 = none →
      (processFile w).stages = [Stage.SELECT_STREAM, Stage.DONE]) ∧
    (∀ i : ℕ, (select_audio_stream w.probeResult w.userInputs).1 = some i →
      (extract_audio (derivedTempPath w.videoPath) w.extractOutcome).1 = false →
      (processFile w).stages = [Stage.SELECT_STREAM, Stage.EXTRACT, Stage.DONE]) ∧
    (∀ i : ℕ, (select_audio_stream w.probeResult w.userInputs).1 = some i →
      (extract_audio (derivedTempPath w.videoPath) w.extractOutcome).1 = true →
      (processFile w).stages = [Stage.SELECT_STREAM, Stage.EXTRACT,
        Stage.TRANSCRIBE, Stage.CLEANUP, Stage.DONE]) := by
  refine ⟨rfl, ?_, ?_, ?_⟩
  · intro hsel; simp [processFile, hsel]
  · intro i hsel hex; simp [processFile, hsel, hex]
  · intro i hsel hex; simp [processFile, hsel, hex]

/-- C5 (witness): the amended theorem applied to `W5b`, whose probe
fails, so its stages are `SELECT_STREAM, DONE`. -/
theorem C5_witness :
    runBatch [W5b] = [processFile W5b] ∧
      (processFile W5b).stages = [Stage.SELECT_STREAM, Stage.DONE] :=
  ⟨(C5_amended_stage_order W5b []).1, (C5_amended_stage_order W5b []).2.1 rfl⟩

/-- C6: `extract_audio` succeeds exactly when the subprocess exit code is
0; a non-zero exit is reported with its code and yields failure; an
exception during subprocess setup is caught and reported, yielding
failure instead of propagating.  (The function invokes the subprocess
once and contains no retry path.) -/
theorem C6_extract_success_iff_zero (p : String) (outcome : Except String ℤ) :
    ((extract_audio p outcome).1 = true ↔ outcome = Except.ok 0) ∧
    (∀ rc : ℤ, outcome = Except.ok rc → rc ≠ 0 →
      (extract_audio p outcome).1 = false ∧
      ExtractMsg.failedWithCode rc ∈ (extract_audio p outcome).2) ∧
    (∀ e : String, outcome = Except.error e →
      (extract_audio p outcome).1 = false ∧
      ExtractMsg.setupError e ∈ (extract_audio p outcome).2) := by
  cases outcome with
  | error e => simp [extract_audio]
  | ok rc =>
    by_cases h : rc = 0
    · subst h
      simp [extract_audio]
    · simp [extract_audio, h]

/-- C6 (witness): the theorem applied at exit code 2. -/
theorem C6_witness :
    (extract_audio "Z:\\ASG\\Temp\\a.wav" (Except.ok 2)).1 = false ∧
      ExtractMsg.failedWithCode 2 ∈
        (extract_audio "Z:\\ASG\\Temp\\a.wav" (Except.ok 2)).2 :=
  (C6_extract_success_iff_zero "Z:\\ASG\\Temp\\a.wav" (Except.ok 2)).2.1
    2 rfl (by decide)

/-- C7: when the probe reports exactly one audio stream, the selector
returns index 0 and issues no interactive prompt, for every sequence of
operator inputs. -/
theorem C7_single_stream_autoselect (streams : List StreamInfo)
    (inputs : List (Option ℤ))
    (h : (streams.filter (fun s => s.codec_type == "audio")).length = 1) :
    select_audio_stream (Except.ok streams) inputs = (some 0, 0) := by
  have he : (streams.filter (fun s => s.codec_type == "audio")).isEmpty = false := by
    rcases hE : streams.filter (fun s => s.codec_type == "audio") with _ | ⟨a, t⟩
    · rw [hE] at h; cases h
    · rw [hE]; rfl
  simp [select_audio_stream, he, h]

/-- C7 (witness): the theorem applied to a probe with one audio and one
video stream, with pending (ignored) operator inputs. -/
theorem C7_witness :
    select_audio_stream (Except.ok S7) [some 5, none] = (some 0, 0) :=
  C7_single_stream_autoselect S7 [some 5, none] (by decide)

/-- C10: whenever `extract_audio` returns failure for a file that reached
extraction, the orchestrator never attempts `os.remove` on the temporary
waveform path, so nothing at that path is deleted by the run. -/
theorem C10_no_cleanup_on_extract_failure (w : FileWorld) (i : ℕ)
    (hsel : (select_audio_stream w.probeResult w.userInputs).1 = some i)
    (hex : (extract_audio (derivedTempPath w.videoPath) w.extractOutcome).1 = false) :
    (processFile w).removeAttempted = false ∧ (processFile w).removed = false := by
  simp [processFile, hsel, hex]

/-- C10 (witness): the theorem applied to `W10`, whose subprocess setup
raises. -/
theorem C10_witness :
    (processFile W10).removeAttempted = false ∧
      (processFile W10).removed = false :=
  C10_no_cleanup_on_extract_failure W10 0 rfl rfl

theorem processFile_tempPath (w : FileWorld) :
    (processFile w).tempPath = derivedTempPath w.videoPath := by
  rcases hsel : (select_audio_stream w.probeResult w.userInputs).1 with _ | i
  · simp [processFile, hsel]
  · simp only [processFile, hsel]
    split <;> rfl

theorem processFile_srtPath (w : FileWorld) :
    (processFile w).srtPath = derivedSrtPath w.videoPath := by
  rcases hsel : (select_audio_stream w.probeResult w.userInputs).1 with _ | i
  · simp [processFile, hsel]
  · simp only [processFile, hsel]
    split <;> rfl

/-- C9: the temporary waveform path and the subtitle path depend only on
the video's extension-less base name — the directory and extension are
discarded — so two videos with the same base name map to the same output
paths, and a later file overwrites an earlier one's outputs. -/
theorem C9_paths_basename_only (w1 w2 : FileWorld)
    (h : splitextRoot (basename w1.videoPath) = splitextRoot (basename w2.videoPath)) :
    derivedTempPath w1.videoPath = derivedTempPath w2.videoPath ∧
    derivedSrtPath w1.videoPath = derivedSrtPath w2.videoPath ∧
    (processFile w1).tempPath = (processFile w2).tempPath ∧
    (processFile w1).srtPath = (processFile w2).srtPath := by
  have ht : derivedTempPath w1.videoPath = derivedTempPath w2.videoPath := by
    unfold derivedTempPath; rw [h]
  have hs : derivedSrtPath w1.videoPath = derivedSrtPath w2.videoPath := by
    unfold derivedSrtPath; rw [h]
  exact ⟨ht, hs,
    by rw [processFile_tempPath, processFile_tempPath, ht],
    by rw [processFile_srtPath, processFile_srtPath, hs]⟩

/-- C9 (witness): the theorem applied to `C:\season1\episode.mkv` and
`D:\season2\episode.mp4`, which share the stem `episode`. -/
theorem C9_witness :
    derivedTempPath W9a.videoPath = derivedTempPath W9b.videoPath ∧
      derivedSrtPath W9a.videoPath = derivedSrtPath W9b.videoPath ∧
      (processFile W9a).tempPath = (processFile W9b).tempPath ∧
      (processFile W9a).srtPath = (processFile W9b).srtPath :=
  C9_paths_basename_only W9a W9b (by decide)

theorem promptLoop_some_iff (n : ℕ) (inputs : List (Option ℤ)) (r : ℕ) :
    (promptLoop n inputs).1 = some r ↔
      ∃ pre c post, inputs = pre ++ some c :: post ∧
        (∀ i ∈ pre, ¬ validEntry n i) ∧
        1 ≤ c ∧ c ≤ (n : ℤ) ∧ r = (c - 1).toNat := by
  induction inputs with
  | nil =>
    constructor
    · intro h; cases h
    · rintro ⟨pre, c, post, habs, -⟩
      exact absurd habs (by simp)
  | cons i rest ih =>
    cases i with
    | none =>
      simp only [promptLoop]
      constructor
      · intro h
        obtain ⟨pre, c, post, h1, h2, h3, h4, h5⟩ := ih.mp h
        refine ⟨none :: pre, c, post, by rw [h1, List.cons_append], ?_, h3, h4, h5⟩
        intro j hj
        rcases List.mem_cons.mp hj with h' | h'
        · subst h'; rintro ⟨c', hc', -⟩; cases hc'
        · exact h2 j h'
      · rintro ⟨pre, c, post, h1, h2, h3, h4, h5⟩
        cases pre with
        | nil => cases h1
        | cons p0 pre' =>
          rw [List.cons_append] at h1
          injection h1 with hh ht
          exact ih.mpr ⟨pre', c, post, ht,
            fun j hj => h2 j (List.mem_cons_of_mem p0 hj), h3, h4, h5⟩
    | some c0 =>
      simp only [promptLoop]
      by_cases hv : 1 ≤ c0 ∧ c0 ≤ (n : ℤ)
      · rw [if_pos hv]
        constructor
        · intro h
          injection h with h'
          exact ⟨[], c0, rest, rfl, by simp, hv.1, hv.2, h'.symm⟩
        · rintro ⟨pre, c, post, h1, h2, h3, h4, h5⟩
          cases pre with
          | nil =>
            rw [List.nil_append] at h1
            injection h1 with hh ht
            injection hh with hcc
            rw [h5, hcc]
          | cons p0 pre' =>
            rw [List.cons_append] at h1
            injection h1 with hh ht
            exact absurd ⟨c0, hh.symm, hv.1, hv.2⟩
              (h2 p0 (List.mem_cons_self p0 pre'))
      · rw [if_neg hv]
        constructor
        · intro h
          obtain ⟨pre, c, post, h1, h2, h3, h4, h5⟩ := ih.mp h
          refine ⟨some c0 :: pre, c, post, by rw [h1, List.cons_append], ?_,
            h3, h4, h5⟩
          intro j hj
          rcases List.mem_cons.mp hj with h' | h'
          · subst h'
            rintro ⟨c', hc', hc1, hc2⟩
            injection hc' with he
            exact hv (he ▸ ⟨hc1, hc2⟩)
          · exact h2 j h'
        · rintro ⟨pre, c, post, h1, h2, h3, h4, h5⟩
          cases pre with
          | nil =>
            rw [List.nil_append] at h1
            injection h1 with hh ht
            injection hh with hcc
            exact absurd (hcc ▸ ⟨h3, h4⟩) hv
          | cons p0 pre' =>
            rw [List.cons_append] at h1
            injection h1 with hh ht
            exact ih.mpr ⟨pre', c, post, ht,
              fun j hj => h2 j (List.mem_cons_of_mem p0 hj), h3, h4, h5⟩

/-- C8: with more than one audio stream, the selector returns a value
exactly when the operator's input sequence contains an entry that parses
to an integer `c` with `1 ≤ c ≤ n`, every entry before it being rejected
(non-numeric or out of range) with a re-prompt; the returned index is the
first such `c` converted to 0-based (`c - 1`). -/
theorem C8_prompt_until_valid (streams : List StreamInfo)
    (inputs : List (Option ℤ)) (r : ℕ)
    (hmulti : 1 < (streams.filter (fun s => s.codec_type == "audio")).length) :
    ((select_audio_stream (Except.ok streams) inputs).1 = some r ↔
      ∃ pre c post, inputs = pre ++ some c :: post ∧
        (∀ i ∈ pre,
          ¬ validEntry (streams.filter (fun s => s.codec_type == "audio")).length i) ∧
        1 ≤ c ∧ c ≤ ((streams.filter (fun s => s.codec_type == "audio")).length : ℤ) ∧
        (r : ℤ) = c - 1) := by
  have he : (streams.filter (fun s => s.codec_type == "audio")).isEmpty = false := by
    rcases hE : streams.filter (fun s => s.codec_type == "audio") with _ | ⟨a, t⟩
    · rw [hE] at hmulti; cases hmulti
    · rw [hE]; rfl
  have hl : ((streams.filter (fun s => s.codec_type == "audio")).length == 1) = false := by
    simp only [beq_eq_false_iff_ne, ne_eq]
    omega
  simp only [select_audio_stream, he, hl, Bool.false_eq_true, if_false]
  rw [promptLoop_some_iff]
  refine exists_congr fun pre => exists_congr fun c => exists_congr fun post =>
    and_congr_right fun _ => and_congr_right fun _ => and_congr_right fun h1 =>
    and_congr_right fun h2 => ?_
  omega

/-- C8 (witness): the theorem applied to a two-stream menu with the input
sequence "non-numeric, 3 (out of range), 2": the selector returns the
0-based index 1. -/
theorem C8_witness :
    (select_audio_stream (Except.ok S8) [none, some 3, some 2]).1 = some 1 := by
  refine (C8_prompt_until_valid S8 [none, some 3, some 2] 1 (by decide)).mpr
    ⟨[none, some 3], 2, [], rfl, ?_, by decide, by decide, by decide⟩
  intro j hj
  rcases List.mem_cons.mp hj with h' | h'
  · subst h'; rintro ⟨c', hc', -⟩; cases hc'
  · rw [List.mem_singleton.mp h']
    rintro ⟨c', hc', -, hle⟩
    injection hc' with he
    rw [← he] at hle
    exact absurd hle (by decide)

end ASR
